import Mathlib

/-!
Verification of the `ext_module` compilation-cache component of pysph.

The component (`ext_module.py`) provides:
  * `get_md5`  — a pure fingerprint of a source text (MD5 hex digest);
  * `ExtModule` — a cache entry constructed from source text and a cache
    root, which materializes the source on disk and derives canonical
    names and paths from the fingerprint;
  * `load` — build-on-demand loading of the compiled artifact.

The implementation file is not part of the provided sources (only its
test suite `tests/test_ext_module.py` is), so the definitions below are
modelled from the specification, with the surface (field names, naming
scheme, extensions) fixed by the test suite.
-/

namespace ExtMod

/-- 2^32, the modulus for 32-bit arithmetic in MD5. -/
def M32 : Nat := 4294967296

/-- Left-rotate a 32-bit value (represented as a `Nat` below `M32`). -/
def rotl (x n : Nat) : Nat := ((x <<< n) ||| (x >>> (32 - n))) % M32

/-- UTF-8 encoding of a single character as a list of byte values. -/
def utf8Bytes (c : Char) : List Nat :=
  let n := c.toNat
  if n < 128 then [n]
  else if n < 2048 then [192 ||| (n >>> 6), 128 ||| (n &&& 63)]
  else if n < 65536 then
    [224 ||| (n >>> 12), 128 ||| ((n >>> 6) &&& 63), 128 ||| (n &&& 63)]
  else
    [240 ||| (n >>> 18), 128 ||| ((n >>> 12) &&& 63),
     128 ||| ((n >>> 6) &&& 63), 128 ||| (n &&& 63)]

/-- The UTF-8 bytes of a string. -/
def strBytes (s : String) : List Nat := (s.data.map utf8Bytes).flatten

/-- The MD5 round constants `K[0..63]` (RFC 1321). -/
def mdK : List Nat :=
  [0xd76aa478, 0xe8c7b756, 0x242070db, 0xc1bdceee,
   0xf57c0faf, 0x4787c62a, 0xa8304613, 0xfd469501,
   0x698098d8, 0x8b44f7af, 0xffff5bb1, 0x895cd7be,
   0x6b901122, 0xfd987193, 0xa679438e, 0x49b40821,
   0xf61e2562, 0xc040b340, 0x265e5a51, 0xe9b6c7aa,
   0xd62f105d, 0x02441453, 0xd8a1e681, 0xe7d3fbc8,
   0x21e1cde6, 0xc33707d6, 0xf4d50d87, 0x455a14ed,
   0xa9e3e905, 0xfcefa3f8, 0x676f02d9, 0x8d2a4c8a,
   0xfffa3942, 0x8771f681, 0x6d9d6122, 0xfde5380c,
   0xa4beea44, 0x4bdecfa9, 0xf6bb4b60, 0xbebfbc70,
   0x289b7ec6, 0xeaa127fa, 0xd4ef3085, 0x04881d05,
   0xd9d4d039, 0xe6db99e5, 0x1fa27cf8, 0xc4ac5665,
   0xf4292244, 0x432aff97, 0xab9423a7, 0xfc93a039,
   0x655b59c3, 0x8f0ccc92, 0xffeff47d, 0x85845dd1,
   0x6fa87e4f, 0xfe2ce6e0, 0xa3014314, 0x4e0811a1,
   0xf7537e82, 0xbd3af235, 0x2ad7d2bb, 0xeb86d391]

/-- The MD5 per-round left-rotation amounts `s[0..63]` (RFC 1321). -/
def mdS : List Nat :=
  [7, 12, 17, 22, 7, 12, 17, 22, 7, 12, 17, 22, 7, 12, 17, 22,
   5, 9, 14, 20, 5, 9, 14, 20, 5, 9, 14, 20, 5, 9, 14, 20,
   4, 11, 16, 23, 4, 11, 16, 23, 4, 11, 16, 23, 4, 11, 16, 23,
   6, 10, 15, 21, 6, 10, 15, 21, 6, 10, 15, 21, 6, 10, 15, 21]

/-- The MD5 nonlinear function for round `i` on words `b, c, d`. -/
def md5F (i b c d : Nat) : Nat :=
  if i < 16 then (b &&& c) ||| ((b ^^^ 4294967295) &&& d)
  else if i < 32 then (d &&& b) ||| ((d ^^^ 4294967295) &&& c)
  else if i < 48 then b ^^^ c ^^^ d
  else c ^^^ (b ||| (d ^^^ 4294967295))

/-- The MD5 message-word index for round `i`. -/
def md5G (i : Nat) : Nat :=
  if i < 16 then i
  else if i < 32 then (5 * i + 1) % 16
  else if i < 48 then (3 * i + 5) % 16
  else (7 * i) % 16

/-- One MD5 round: transforms the state `(a, b, c, d)` using message
words `m` at round index `i`. -/
def md5Step (m : List Nat) (st : Nat × Nat × Nat × Nat) (i : Nat) :
    Nat × Nat × Nat × Nat :=
  let (a, b, c, d) := st
  let f := (md5F i b c d + a + mdK.getD i 0 + m.getD (md5G i) 0) % M32
  (d, (b + rotl f (mdS.getD i 0)) % M32, b, c)

/-- Process one 16-word chunk: 64 rounds, then add to the incoming state. -/
def md5Chunk (st : Nat × Nat × Nat × Nat) (m : List Nat) :
    Nat × Nat × Nat × Nat :=
  let (a, b, c, d) := (List.range 64).foldl (md5Step m) st
  let (a0, b0, c0, d0) := st
  ((a0 + a) % M32, (b0 + b) % M32, (c0 + c) % M32, (d0 + d) % M32)

/-- Group a list of bytes into little-endian 32-bit words. -/
def toWords : List Nat → List Nat
  | b0 :: b1 :: b2 :: b3 :: rest =>
      (b0 + (b1 <<< 8) + (b2 <<< 16) + (b3 <<< 24)) :: toWords rest
  | _ => []

/-- MD5 padding: append `0x80`, zero bytes to 56 mod 64, then the
64-bit little-endian bit length. -/
def md5Pad (msg : List Nat) : List Nat :=
  let len := msg.length
  let padLen := (55 + 64 - len % 64) % 64
  let bitLen := (8 * len) % 18446744073709551616
  msg ++ [128] ++ List.replicate padLen 0 ++
    (List.range 8).map (fun i => (bitLen >>> (8 * i)) &&& 255)

/-- Split a byte list into 64-byte chunks (`fuel` bounds the recursion). -/
def chunks : Nat → List Nat → List (List Nat)
  | 0, _ => []
  | _, [] => []
  | fuel + 1, l => l.take 64 :: chunks fuel (l.drop 64)

/-- The MD5 initial state (RFC 1321). -/
def md5Start : Nat × Nat × Nat × Nat :=
  (0x67452301, 0xefcdab89, 0x98badcfe, 0x10325476)

/-- Run MD5 over a padded byte list, producing the four state words. -/
def md5Words (padded : List Nat) : Nat × Nat × Nat × Nat :=
  (chunks padded.length padded).foldl
    (fun st ch => md5Chunk st (toWords ch)) md5Start

/-- A hexadecimal digit character for a value below 16. -/
def hexDigit (n : Nat) : Char :=
  if n < 10 then Char.ofNat (48 + n) else Char.ofNat (87 + n)

/-- Two lowercase hex digits of a byte. -/
def byteHex (b : Nat) : List Char := [hexDigit (b / 16), hexDigit (b % 16)]

/-- The eight hex digits of a 32-bit word, bytes in little-endian order. -/
def wordHexLE (w : Nat) : List Char :=
  ((List.range 4).map (fun i => byteHex ((w >>> (8 * i)) &&& 255))).flatten

/-- Modelled from the spec: the fingerprint function of the missing
`ext_module.py` (`get_md5`), specified as a deterministic, pure,
collision-resistant digest of the source text's bytes; realized as the
MD5 hex digest (RFC 1321) of the text's UTF-8 bytes, matching the
function's name in the test suite. -/
def get_md5 (s : String) : String :=
  let (a, b, c, d) := md5Words (md5Pad (strBytes s))
  String.mk (wordHexLE a ++ wordHexLE b ++ wordHexLE c ++ wordHexLE d)

/-- A model filesystem: an association list of file paths to contents
(the first binding for a path is the current one) and a list of existing
directories. -/
structure FS where
  files : List (String × String)
  dirs : List String
deriving DecidableEq

/-- Read the contents of the file at path `p`, if it exists. -/
def FS.read (fs : FS) (p : String) : Option String := fs.files.lookup p

/-- Whether a file exists at path `p`. -/
def FS.existsFile (fs : FS) (p : String) : Bool := (fs.read p).isSome

/-- Write contents `v` to the file at path `p` (create or overwrite). -/
def FS.write (fs : FS) (p v : String) : FS :=
  { fs with files := (p, v) :: fs.files }

/-- Create directory `d`; creating an existing directory is a no-op. -/
def FS.mkdir (fs : FS) (d : String) : FS :=
  if d ∈ fs.dirs then fs else { fs with dirs := d :: fs.dirs }

/-- Join a directory and a file name into a path. -/
def joinPath (a b : String) : String := a ++ "/" ++ b

/-- The error taxonomy of the component (spec section 7). -/
inductive CacheError where
  | IOFailure (path : String)
  | FingerprintCollision (path : String)
  | BuildFailed (diag : String)
  | LoadFailed (path : String)
deriving DecidableEq

/-- A cache entry, with the fields the test suite reads: the retained
source text `code`, the cache root, the `hash` fingerprint, the
canonical `name`, and the derived source/artifact paths. -/
structure ExtModule where
  code : String
  root : String
  hash : String
  name : String
  src_path : String
  ext_path : String
deriving DecidableEq

/-- Modelled from the spec: pure name and path resolution of the missing
`ext_module.py` — `canonicalName` is the fixed prefix `m_` plus the
textual digest, `sourcePath` is `root/canonicalName.pyx` and
`artifactPath` is `root/canonicalName.so` (extensions fixed by the test
suite); no filesystem access. -/
def resolve (root hash : String) : String × String × String :=
  ("m_" ++ hash, joinPath root ("m_" ++ hash ++ ".pyx"),
   joinPath root ("m_" ++ hash ++ ".so"))

/-- The in-memory entry computed purely from source text and root. -/
def mkExtModule (code root : String) : ExtModule :=
  let h := get_md5 code
  let (n, sp, ep) := resolve root h
  { code := code, root := root, hash := h, name := n,
    src_path := sp, ext_path := ep }

/-- Modelled from the spec: the process-wide default cache root used
when the caller supplies none. -/
def defaultRoot : String := ".pysph"

/-- Modelled from the spec: entry construction (`ExtModule.__init__` of
the missing `ext_module.py`). Computes the fingerprint and paths, ensures
`root` and `root/build` exist, and materializes the source file: if
`sourcePath` is absent the text is written; if it is present it is never
rewritten, and with the optional integrity check enabled (`check`) a
content mismatch is surfaced as `FingerprintCollision`. -/
def constructEntry (code root : String) (check : Bool) (fs : FS) :
    Except CacheError (ExtModule × FS) :=
  let m := mkExtModule code root
  let fs1 := (fs.mkdir root).mkdir (joinPath root "build")
  match fs1.read m.src_path with
  | none => Except.ok (m, fs1.write m.src_path code)
  | some old =>
      if check && old != code then
        Except.error (CacheError.FingerprintCollision m.src_path)
      else Except.ok (m, fs1)

/-- Entry construction with no root supplied: uses the default root. -/
def constructEntryDefault (code : String) (check : Bool) (fs : FS) :
    Except CacheError (ExtModule × FS) :=
  constructEntry code defaultRoot check fs

/-- Build-side state: the filesystem plus a compiler-invocation counter
(the spec's observable build counter). -/
structure BuildState where
  fs : FS
  ncalls : Nat
deriving DecidableEq

/-- Modelled from the spec: build orchestration (`ensureBuilt`). A
present artifact is a cache hit returned with no compiler invocation;
otherwise the external compiler (a black-box function from source text
to artifact bytes or diagnostic text) is invoked exactly once: on
success the artifact is written to `artifactPath`, on failure a
`BuildFailed` error carries the diagnostic verbatim, nothing is retried
and no artifact is written. -/
def ensureBuilt (compile : String → Except String String) (m : ExtModule)
    (st : BuildState) : Except CacheError String × BuildState :=
  if st.fs.existsFile m.ext_path then (Except.ok m.ext_path, st)
  else
    match st.fs.read m.src_path with
    | none => (Except.error (CacheError.IOFailure m.src_path), st)
    | some src =>
        match compile src with
        | Except.ok art =>
            (Except.ok m.ext_path,
             { fs := st.fs.write m.ext_path art, ncalls := st.ncalls + 1 })
        | Except.error diag =>
            (Except.error (CacheError.BuildFailed diag),
             { st with ncalls := st.ncalls + 1 })

/-- A loaded module handle: exported symbols by name. Invoking a symbol
yields its return value (the toy source language below has functions of
no arguments returning string literals). -/
def ModuleHandle : Type := String → Option String

/-- Strip an expected prefix from a character list, or fail. -/
def dropPrefixChars : List Char → List Char → Option (List Char)
  | [], cs => some cs
  | p :: ps, c :: cs => if c = p then dropPrefixChars ps cs else none
  | _ :: _, [] => none

/-- Split a character list at the first occurrence of `stop`, dropping
it; fails if `stop` does not occur. -/
def takeUntil (stop : Char) : List Char → Option (List Char × List Char)
  | [] => none
  | c :: cs =>
      if c = stop then some ([], cs)
      else match takeUntil stop cs with
        | some (pre, rest) => some (c :: pre, rest)
        | none => none

/-- Parse the concrete-scenario source shape of the spec: a single
function definition returning a fixed string literal, i.e.
`def NAME():\n    return "LIT"\n`; yields the exported name and the
literal. -/
def parseSimpleDef (src : String) : Option (String × String) :=
  match dropPrefixChars "def ".data src.data with
  | none => none
  | some rest =>
      match takeUntil '(' rest with
      | none => none
      | some (nameCs, rest2) =>
          match dropPrefixChars "):\n    return \"".data rest2 with
          | none => none
          | some rest3 =>
              match takeUntil '"' rest3 with
              | none => none
              | some (litCs, rest4) =>
                  if rest4 = ['\n'] then
                    some (String.mk nameCs, String.mk litCs)
                  else none

/-- Modelled from the spec: the external compiler black box for the
spec's concrete scenario. It accepts exactly the sources of the
one-function-returning-a-literal shape, emitting the artifact bytes
(the source carried through opaquely), and rejects anything else with a
diagnostic naming the offending source. -/
def toyCompile (src : String) : Except String String :=
  if (parseSimpleDef src).isSome then Except.ok src
  else Except.error ("Cython compile failed: " ++ src)

/-- Whether artifact bytes form a loadable module in the toy semantics. -/
def isValidArtifact (art : String) : Bool := (parseSimpleDef art).isSome

/-- Modelled from the spec: dynamic loading of artifact bytes, exposing
the exported callable symbol by name. -/
def loadArtifact (art : String) : ModuleHandle := fun sym =>
  match parseSimpleDef art with
  | some (n, lit) => if sym = n then some lit else none
  | none => none

/-- Modelled from the spec: `load` — ensures the artifact is built, then
loads it and returns a handle to its exported symbols; a present but
invalid artifact is a `LoadFailed` error. -/
def load (compile : String → Except String String) (m : ExtModule)
    (st : BuildState) : Except CacheError ModuleHandle × BuildState :=
  match ensureBuilt compile m st with
  | (Except.error e, st1) => (Except.error e, st1)
  | (Except.ok p, st1) =>
      match st1.fs.read p with
      | none => (Except.error (CacheError.IOFailure p), st1)
      | some art =>
          if isValidArtifact art then (Except.ok (loadArtifact art), st1)
          else (Except.error (CacheError.LoadFailed p), st1)

/-! ### Filesystem lemmas -/

theorem FS.read_write_self (fs : FS) (p v : String) :
    (fs.write p v).read p = some v := by
  simp [FS.write, FS.read, List.lookup]

theorem FS.read_write_of_ne (fs : FS) {q p : String} (v : String)
    (h : q ≠ p) : (fs.write p v).read q = fs.read q := by
  have hb : (q == p) = false := beq_eq_false_iff_ne.mpr h
  simp [FS.write, FS.read, List.lookup, hb]

theorem FS.read_mkdir (fs : FS) (d p : String) :
    (fs.mkdir d).read p = fs.read p := by
  unfold FS.mkdir
  split <;> rfl

theorem FS.dirs_write (fs : FS) (p v : String) :
    (fs.write p v).dirs = fs.dirs := rfl

theorem FS.mem_dirs_mkdir_self (fs : FS) (d : String) :
    d ∈ (fs.mkdir d).dirs := by
  by_cases h : d ∈ fs.dirs
  · simp [FS.mkdir, h]
  · simp [FS.mkdir, h]

theorem FS.mem_dirs_mkdir_of_mem (fs : FS) {e : String} (d : String)
    (h : e ∈ fs.dirs) : e ∈ (fs.mkdir d).dirs := by
  by_cases hd : d ∈ fs.dirs
  · simpa [FS.mkdir, hd] using h
  · simp [FS.mkdir, hd, h]

theorem FS.mkdir_eq_of_mem {fs : FS} {d : String} (h : d ∈ fs.dirs) :
    fs.mkdir d = fs := by
  simp [FS.mkdir, h]

/-! ### Field lemmas for the pure entry computation -/

theorem mkExtModule_code (code root : String) :
    (mkExtModule code root).code = code := rfl

theorem mkExtModule_root (code root : String) :
    (mkExtModule code root).root = root := rfl

theorem mkExtModule_hash (code root : String) :
    (mkExtModule code root).hash = get_md5 code := rfl

theorem mkExtModule_name (code root : String) :
    (mkExtModule code root).name = "m_" ++ get_md5 code := rfl

theorem mkExtModule_src_path (code root : String) :
    (mkExtModule code root).src_path =
      joinPath root ((mkExtModule code root).name ++ ".pyx") := rfl

theorem mkExtModule_ext_path (code root : String) :
    (mkExtModule code root).ext_path =
      joinPath root ((mkExtModule code root).name ++ ".so") := rfl

theorem mkExtModule_src_ne_ext (code root : String) :
    (mkExtModule code root).src_path ≠ (mkExtModule code root).ext_path := by
  intro h
  have hl := congrArg String.length h
  rw [mkExtModule_src_path, mkExtModule_ext_path] at hl
  have h4 : String.length ".pyx" = 4 := rfl
  have h3 : String.length ".so" = 3 := rfl
  simp [joinPath, String.length_append, h4, h3] at hl

/-! ### Characterization of `constructEntry` -/

theorem constructEntry_fresh (code root : String) (check : Bool) (fs : FS)
    (h : fs.read (mkExtModule code root).src_path = none) :
    constructEntry code root check fs =
      Except.ok (mkExtModule code root,
        (((fs.mkdir root).mkdir (joinPath root "build")).write
          (mkExtModule code root).src_path code)) := by
  simp only [constructEntry, FS.read_mkdir, h]

theorem constructEntry_present (code root : String) (check : Bool) (fs : FS)
    (old : String)
    (h : fs.read (mkExtModule code root).src_path = some old)
    (hguard : (check && old != code) = false) :
    constructEntry code root check fs =
      Except.ok (mkExtModule code root,
        (fs.mkdir root).mkdir (joinPath root "build")) := by
  simp only [constructEntry, FS.read_mkdir, h, hguard]
  simp

theorem constructEntry_collision (code root : String) (check : Bool)
    (fs : FS) (old : String)
    (h : fs.read (mkExtModule code root).src_path = some old)
    (hguard : (check && old != code) = true) :
    constructEntry code root check fs =
      Except.error (CacheError.FingerprintCollision
        (mkExtModule code root).src_path) := by
  simp only [constructEntry, FS.read_mkdir, h, hguard]
  simp

theorem constructEntry_ok_inv {code root : String} {check : Bool} {fs : FS}
    {m : ExtModule} {fs' : FS}
    (hok : constructEntry code root check fs = Except.ok (m, fs')) :
    m = mkExtModule code root ∧
    ((fs.read (mkExtModule code root).src_path = none ∧
      fs' = ((fs.mkdir root).mkdir (joinPath root "build")).write
        (mkExtModule code root).src_path code) ∨
     (∃ old, fs.read (mkExtModule code root).src_path = some old ∧
      (check && old != code) = false ∧
      fs' = (fs.mkdir root).mkdir (joinPath root "build"))) := by
  rcases h2 : fs.read (mkExtModule code root).src_path with _ | old
  · rw [constructEntry_fresh code root check fs h2] at hok
    have hp := Except.ok.inj hok
    exact ⟨(congrArg Prod.fst hp).symm,
      Or.inl ⟨rfl, (congrArg Prod.snd hp).symm⟩⟩
  · rcases hguard : (check && old != code) with _ | _
    · rw [constructEntry_present code root check fs old h2 hguard] at hok
      have hp := Except.ok.inj hok
      exact ⟨(congrArg Prod.fst hp).symm,
        Or.inr ⟨old, rfl, hguard, (congrArg Prod.snd hp).symm⟩⟩
    · rw [constructEntry_collision code root check fs old h2 hguard] at hok
      exact absurd hok (by simp)

/-! ### Characterization of `ensureBuilt` -/

theorem ensureBuilt_hit (compile : String → Except String String)
    (m : ExtModule) (st : BuildState)
    (h : st.fs.existsFile m.ext_path = true) :
    ensureBuilt compile m st = (Except.ok m.ext_path, st) := by
  simp [ensureBuilt, h]

theorem ensureBuilt_build (compile : String → Except String String)
    (m : ExtModule) (st : BuildState) (src art : String)
    (hext : st.fs.existsFile m.ext_path = false)
    (hsrc : st.fs.read m.src_path = some src)
    (hc : compile src = Except.ok art) :
    ensureBuilt compile m st =
      (Except.ok m.ext_path,
       { fs := st.fs.write m.ext_path art, ncalls := st.ncalls + 1 }) := by
  simp [ensureBuilt, hext, hsrc, hc]

theorem ensureBuilt_failed (compile : String → Except String String)
    (m : ExtModule) (st : BuildState) (src diag : String)
    (hext : st.fs.existsFile m.ext_path = false)
    (hsrc : st.fs.read m.src_path = some src)
    (hc : compile src = Except.error diag) :
    ensureBuilt compile m st =
      (Except.error (CacheError.BuildFailed diag),
       { st with ncalls := st.ncalls + 1 }) := by
  simp [ensureBuilt, hext, hsrc, hc]

theorem ensureBuilt_preserves_src (compile : String → Except String String)
    (m : ExtModule) (st : BuildState)
    (hne : m.src_path ≠ m.ext_path) :
    (ensureBuilt compile m st).2.fs.read m.src_path =
      st.fs.read m.src_path := by
  rcases hext : st.fs.existsFile m.ext_path with _ | _
  · rcases hsrc : st.fs.read m.src_path with _ | src
    · simp [ensureBuilt, hext, hsrc]
    · rcases hc : compile src with diag | art
      · rw [ensureBuilt_failed compile m st src diag hext hsrc hc]
        exact hsrc
      · rw [ensureBuilt_build compile m st src art hext hsrc hc]
        exact (FS.read_write_of_ne st.fs art hne).trans hsrc
  · rw [ensureBuilt_hit compile m st hext]

/-! ### Claim theorems -/

/-- C1: the digest is deterministic and discriminating — equal texts
have equal digests (and the digest is a pure function of the text, with
no side effects, being a Lean function of the string alone), while the
concrete pair "hello world" and "hello world " (one trailing space)
have different digests. -/
theorem get_md5_deterministic_and_discriminating :
    (∀ t1 t2 : String, t1 = t2 → get_md5 t1 = get_md5 t2) ∧
    get_md5 "hello world" ≠ get_md5 "hello world " :=
  ⟨fun _ _ h => congrArg get_md5 h, by decide⟩

/-- Witness for C1 at the concrete text "hello world". -/
theorem get_md5_deterministic_and_discriminating_witness :
    get_md5 "hello world" = get_md5 "hello world" :=
  get_md5_deterministic_and_discriminating.1 "hello world" "hello world" rfl

/-- C2: after a successful `constructEntry(t, root)` the source file
exists at the entry's `src_path` and reading it back yields exactly `t`
(write-then-read round trip), whenever the integrity check is on or no
file pre-existed at that path. -/
theorem constructEntry_roundtrip (code root : String) (check : Bool)
    (fs : FS) (m : ExtModule) (fs' : FS)
    (hok : constructEntry code root check fs = Except.ok (m, fs'))
    (hpre : check = true ∨
      fs.read (mkExtModule code root).src_path = none) :
    fs'.read m.src_path = some code ∧
    fs'.existsFile m.src_path = true := by
  obtain ⟨hm, hcase⟩ := constructEntry_ok_inv hok
  subst hm
  rcases hcase with ⟨hnone, hfs'⟩ | ⟨old, hsome, hguard, hfs'⟩
  · subst hfs'
    exact ⟨FS.read_write_self _ _ _,
      by simp [FS.existsFile, FS.read_write_self]⟩
  · have hold : old = code := by
      rcases hpre with hc | hn
      · subst hc
        simpa using hguard
      · rw [hn] at hsome
        cases hsome
    subst hold
    subst hfs'
    constructor
    · rw [FS.read_mkdir, FS.read_mkdir]
      exact hsome
    · simp [FS.existsFile, FS.read_mkdir, hsome]

/-- Witness for C2: constructing the entry for the text "x" under root
"r" on an empty filesystem round-trips the source text. -/
theorem constructEntry_roundtrip_witness :
    ((((FS.mk [] []).mkdir "r").mkdir (joinPath "r" "build")).write
        (mkExtModule "x" "r").src_path "x").read
      (mkExtModule "x" "r").src_path = some "x" ∧
    ((((FS.mk [] []).mkdir "r").mkdir (joinPath "r" "build")).write
        (mkExtModule "x" "r").src_path "x").existsFile
      (mkExtModule "x" "r").src_path = true :=
  constructEntry_roundtrip "x" "r" true (FS.mk [] []) (mkExtModule "x" "r")
    ((((FS.mk [] []).mkdir "r").mkdir (joinPath "r" "build")).write
      (mkExtModule "x" "r").src_path "x")
    (by rfl) (Or.inl rfl)

/-- C5: name and path resolution is a pure function of root and
fingerprint — the entry produced by `constructEntry` equals the purely
computed `mkExtModule code root`, its canonical name is the prefix `m_`
plus the digest, its source path is `root/name.pyx`, its artifact path
is `root/name.so`, and `resolve` (which takes no filesystem argument)
yields exactly these. -/
theorem entry_naming_pure (code root : String) (check : Bool) (fs : FS)
    (m : ExtModule) (fs' : FS)
    (hok : constructEntry code root check fs = Except.ok (m, fs')) :
    m = mkExtModule code root ∧
    m.hash = get_md5 code ∧
    m.name = "m_" ++ get_md5 code ∧
    m.src_path = joinPath root (m.name ++ ".pyx") ∧
    m.ext_path = joinPath root (m.name ++ ".so") ∧
    resolve root m.hash = (m.name, m.src_path, m.ext_path) := by
  obtain ⟨hm, -⟩ := constructEntry_ok_inv hok
  subst hm
  exact ⟨rfl, rfl, rfl, rfl, rfl, rfl⟩

/-- Witness for C5 at the concrete text "x" and root "r". -/
theorem entry_naming_pure_witness :
    mkExtModule "x" "r" = mkExtModule "x" "r" ∧
    (mkExtModule "x" "r").hash = get_md5 "x" ∧
    (mkExtModule "x" "r").name = "m_" ++ get_md5 "x" ∧
    (mkExtModule "x" "r").src_path =
      joinPath "r" ((mkExtModule "x" "r").name ++ ".pyx") ∧
    (mkExtModule "x" "r").ext_path =
      joinPath "r" ((mkExtModule "x" "r").name ++ ".so") ∧
    resolve "r" (mkExtModule "x" "r").hash =
      ((mkExtModule "x" "r").name, (mkExtModule "x" "r").src_path,
       (mkExtModule "x" "r").ext_path) :=
  entry_naming_pure "x" "r" true (FS.mk [] []) (mkExtModule "x" "r")
    ((((FS.mk [] []).mkdir "r").mkdir (joinPath "r" "build")).write
      (mkExtModule "x" "r").src_path "x")
    (by rfl)

/-- C9: the entry retains the submitted source text verbatim in its
`code` field. -/
theorem entry_code_retained (code root : String) (check : Bool) (fs : FS)
    (m : ExtModule) (fs' : FS)
    (hok : constructEntry code root check fs = Except.ok (m, fs')) :
    m.code = code := by
  obtain ⟨hm, -⟩ := constructEntry_ok_inv hok
  subst hm
  rfl

/-- Witness for C9 at the concrete text "x" and root "r". -/
theorem entry_code_retained_witness : (mkExtModule "x" "r").code = "x" :=
  entry_code_retained "x" "r" true (FS.mk [] []) (mkExtModule "x" "r")
    ((((FS.mk [] []).mkdir "r").mkdir (joinPath "r" "build")).write
      (mkExtModule "x" "r").src_path "x")
    (by rfl)

/-- C10: the build scratch directory `root/build` exists as soon as
`constructEntry` returns, before any build or load is requested. -/
theorem build_dir_eager (code root : String) (check : Bool) (fs : FS)
    (m : ExtModule) (fs' : FS)
    (hok : constructEntry code root check fs = Except.ok (m, fs')) :
    joinPath root "build" ∈ fs'.dirs := by
  obtain ⟨-, hcase⟩ := constructEntry_ok_inv hok
  rcases hcase with ⟨-, hfs'⟩ | ⟨old, -, -, hfs'⟩
  · subst hfs'
    rw [FS.dirs_write]
    exact FS.mem_dirs_mkdir_self _ _
  · subst hfs'
    exact FS.mem_dirs_mkdir_self _ _

/-- Witness for C10 at the concrete text "x" and root "r". -/
theorem build_dir_eager_witness :
    joinPath "r" "build" ∈
      ((((FS.mk [] []).mkdir "r").mkdir (joinPath "r" "build")).write
        (mkExtModule "x" "r").src_path "x").dirs :=
  build_dir_eager "x" "r" true (FS.mk [] []) (mkExtModule "x" "r")
    ((((FS.mk [] []).mkdir "r").mkdir (joinPath "r" "build")).write
      (mkExtModule "x" "r").src_path "x")
    (by rfl)

/-- C3: with no pre-existing artifact, `load` invokes the external
compiler (the invocation counter increases by one), produces the
artifact at `ext_path`, and returns a handle whose exported function
returns exactly the literal specified by the source; a second `load`
with the artifact present returns a working handle from the unchanged
state, so the compiler is not invoked again. -/
theorem load_builds_once_then_hits (m : ExtModule) (st : BuildState)
    (src fname lit : String)
    (hsrc : st.fs.read m.src_path = some src)
    (hext : st.fs.existsFile m.ext_path = false)
    (hparse : parseSimpleDef src = some (fname, lit)) :
    load toyCompile m st =
      (Except.ok (loadArtifact src),
       ⟨st.fs.write m.ext_path src, st.ncalls + 1⟩) ∧
    loadArtifact src fname = some lit ∧
    (st.fs.write m.ext_path src).existsFile m.ext_path = true ∧
    load toyCompile m ⟨st.fs.write m.ext_path src, st.ncalls + 1⟩ =
      (Except.ok (loadArtifact src),
       ⟨st.fs.write m.ext_path src, st.ncalls + 1⟩) := by
  have hc : toyCompile src = Except.ok src := by
    simp [toyCompile, hparse]
  have hext1 : (st.fs.write m.ext_path src).existsFile m.ext_path = true := by
    simp [FS.existsFile, FS.read_write_self]
  refine ⟨?_, ?_, hext1, ?_⟩
  · unfold load
    rw [ensureBuilt_build toyCompile m st src src hext hsrc hc]
    simp [FS.read_write_self, isValidArtifact, hparse]
  · simp [loadArtifact, hparse]
  · unfold load
    rw [ensureBuilt_hit toyCompile m ⟨st.fs.write m.ext_path src,
      st.ncalls + 1⟩ hext1]
    simp [FS.read_write_self, isValidArtifact, hparse]

/-- Witness for C3 on the concrete test scenario: a source defining one
function `f` returning the literal "hello world". -/
theorem load_builds_once_then_hits_witness :
    load toyCompile
      (ExtModule.mk "def f():\n    return \"hello world\"\n" "r" "h" "n"
        "n.pyx" "n.so")
      ⟨FS.mk [("n.pyx", "def f():\n    return \"hello world\"\n")] [], 0⟩ =
      (Except.ok (loadArtifact "def f():\n    return \"hello world\"\n"),
       ⟨(FS.mk [("n.pyx", "def f():\n    return \"hello world\"\n")]
           []).write "n.so" "def f():\n    return \"hello world\"\n",
        0 + 1⟩) ∧
    loadArtifact "def f():\n    return \"hello world\"\n" "f" =
      some "hello world" ∧
    ((FS.mk [("n.pyx", "def f():\n    return \"hello world\"\n")]
        []).write "n.so"
        "def f():\n    return \"hello world\"\n").existsFile "n.so" =
      true ∧
    load toyCompile
      (ExtModule.mk "def f():\n    return \"hello world\"\n" "r" "h" "n"
        "n.pyx" "n.so")
      ⟨(FS.mk [("n.pyx", "def f():\n    return \"hello world\"\n")]
          []).write "n.so" "def f():\n    return \"hello world\"\n",
       0 + 1⟩ =
      (Except.ok (loadArtifact "def f():\n    return \"hello world\"\n"),
       ⟨(FS.mk [("n.pyx", "def f():\n    return \"hello world\"\n")]
           []).write "n.so" "def f():\n    return \"hello world\"\n",
        0 + 1⟩) :=
  load_builds_once_then_hits
    (ExtModule.mk "def f():\n    return \"hello world\"\n" "r" "h" "n"
      "n.pyx" "n.so")
    ⟨FS.mk [("n.pyx", "def f():\n    return \"hello world\"\n")] [], 0⟩
    "def f():\n    return \"hello world\"\n" "f" "hello world"
    (by decide) (by decide) (by decide)

/-- C4: when the external compiler rejects the source (cache miss), the
build fails with `BuildFailed` carrying the compiler's diagnostic
verbatim, the compiler is invoked exactly once (no retry), the
filesystem is unchanged so no artifact — partial or otherwise — exists
at `ext_path` afterwards, and `load` surfaces the same error. -/
theorem build_failure_no_artifact (compile : String → Except String String)
    (m : ExtModule) (st : BuildState) (src diag : String)
    (hext : st.fs.existsFile m.ext_path = false)
    (hsrc : st.fs.read m.src_path = some src)
    (hc : compile src = Except.error diag) :
    ensureBuilt compile m st =
      (Except.error (CacheError.BuildFailed diag),
       { st with ncalls := st.ncalls + 1 }) ∧
    (ensureBuilt compile m st).2.fs.existsFile m.ext_path = false ∧
    (ensureBuilt compile m st).2.fs = st.fs ∧
    load compile m st =
      (Except.error (CacheError.BuildFailed diag),
       { st with ncalls := st.ncalls + 1 }) := by
  have h1 := ensureBuilt_failed compile m st src diag hext hsrc hc
  refine ⟨h1, ?_, ?_, ?_⟩
  · rw [h1]
    exact hext
  · rw [h1]
  · unfold load
    rw [h1]

/-- Witness for C4 on the concrete malformed source "garbage", rejected
by the model compiler. -/
theorem build_failure_no_artifact_witness :
    ensureBuilt toyCompile
      (ExtModule.mk "garbage" "r" "h" "n" "n.pyx" "n.so")
      ⟨FS.mk [("n.pyx", "garbage")] [], 0⟩ =
      (Except.error
        (CacheError.BuildFailed ("Cython compile failed: " ++ "garbage")),
       { fs := FS.mk [("n.pyx", "garbage")] [], ncalls := 0 + 1 }) :=
  (build_failure_no_artifact toyCompile
    (ExtModule.mk "garbage" "r" "h" "n" "n.pyx" "n.so")
    ⟨FS.mk [("n.pyx", "garbage")] [], 0⟩
    "garbage" ("Cython compile failed: " ++ "garbage")
    (by decide) (by decide) (by rfl)).1

/-- C6: once a source file exists at a `src_path`, no operation
overwrites it with different content — materializing a different text
under the same fingerprint fails as `FingerprintCollision` when the
integrity check is on, succeeds without rewriting the file when it is
off, and the build step never writes to the source path at all. -/
theorem no_silent_overwrite (code root : String) (fs : FS) (old : String)
    (hold : fs.read (mkExtModule code root).src_path = some old)
    (hne : old ≠ code) :
    constructEntry code root true fs =
      Except.error (CacheError.FingerprintCollision
        (mkExtModule code root).src_path) ∧
    (∀ check m fs',
      constructEntry code root check fs = Except.ok (m, fs') →
      fs'.read (mkExtModule code root).src_path = some old) ∧
    (∀ compile : String → Except String String, ∀ st : BuildState,
      (ensureBuilt compile (mkExtModule code root) st).2.fs.read
          (mkExtModule code root).src_path =
        st.fs.read (mkExtModule code root).src_path) := by
  refine ⟨?_, ?_, ?_⟩
  · exact constructEntry_collision code root true fs old hold
      (by simp [hne])
  · intro check m fs' hok
    obtain ⟨hm, hcase⟩ := constructEntry_ok_inv hok
    rcases hcase with ⟨hnone, -⟩ | ⟨old2, hsome, -, hfs'⟩
    · rw [hold] at hnone
      cases hnone
    · subst hfs'
      rw [FS.read_mkdir, FS.read_mkdir]
      exact hold
  · intro compile st
    exact ensureBuilt_preserves_src compile _ st
      (mkExtModule_src_ne_ext code root)

/-- Witness for C6: materializing the text "x" under root "r" when the
source path already holds the different text "y" fails with
`FingerprintCollision`. -/
theorem no_silent_overwrite_witness :
    constructEntry "x" "r" true
      (FS.mk [((mkExtModule "x" "r").src_path, "y")] []) =
      Except.error (CacheError.FingerprintCollision
        (mkExtModule "x" "r").src_path) :=
  (no_silent_overwrite "x" "r"
    (FS.mk [((mkExtModule "x" "r").src_path, "y")] []) "y"
    (by decide) (by decide)).1

/-- C7: `constructEntry` is idempotent — re-running it on the state it
produced yields the identical entry (hence identical fingerprint, name
and paths) and leaves the state exactly unchanged, so the second run
performs no additional write. -/
theorem constructEntry_idempotent (code root : String) (check : Bool)
    (fs : FS) (m : ExtModule) (fs' : FS)
    (hok : constructEntry code root check fs = Except.ok (m, fs')) :
    constructEntry code root check fs' = Except.ok (m, fs') := by
  obtain ⟨hm, hcase⟩ := constructEntry_ok_inv hok
  subst hm
  rcases hcase with ⟨hnone, hfs'⟩ | ⟨old, hsome, hguard, hfs'⟩
  · subst hfs'
    have hroot : root ∈
        (((fs.mkdir root).mkdir (joinPath root "build")).write
          (mkExtModule code root).src_path code).dirs := by
      rw [FS.dirs_write]
      exact FS.mem_dirs_mkdir_of_mem _ _ (FS.mem_dirs_mkdir_self _ _)
    have hbuild : joinPath root "build" ∈
        (((fs.mkdir root).mkdir (joinPath root "build")).write
          (mkExtModule code root).src_path code).dirs := by
      rw [FS.dirs_write]
      exact FS.mem_dirs_mkdir_self _ _
    have hguard2 : (check && code != code) = false := by simp
    rw [constructEntry_present code root check _ code
        (FS.read_write_self _ _ _) hguard2,
      FS.mkdir_eq_of_mem hroot, FS.mkdir_eq_of_mem hbuild]
  · subst hfs'
    have hroot : root ∈
        ((fs.mkdir root).mkdir (joinPath root "build")).dirs :=
      FS.mem_dirs_mkdir_of_mem _ _ (FS.mem_dirs_mkdir_self _ _)
    have hbuild : joinPath root "build" ∈
        ((fs.mkdir root).mkdir (joinPath root "build")).dirs :=
      FS.mem_dirs_mkdir_self _ _
    have hread : ((fs.mkdir root).mkdir (joinPath root "build")).read
        (mkExtModule code root).src_path = some old := by
      rw [FS.read_mkdir, FS.read_mkdir]
      exact hsome
    rw [constructEntry_present code root check _ old hread hguard,
      FS.mkdir_eq_of_mem hroot, FS.mkdir_eq_of_mem hbuild]

/-- Witness for C7: re-running the construction of the entry for "x"
under "r" on the state the first run produced is a no-op. -/
theorem constructEntry_idempotent_witness :
    constructEntry "x" "r" true
      ((((FS.mk [] []).mkdir "r").mkdir (joinPath "r" "build")).write
        (mkExtModule "x" "r").src_path "x") =
      Except.ok (mkExtModule "x" "r",
        (((FS.mk [] []).mkdir "r").mkdir (joinPath "r" "build")).write
          (mkExtModule "x" "r").src_path "x") :=
  constructEntry_idempotent "x" "r" true (FS.mk [] [])
    (mkExtModule "x" "r")
    ((((FS.mk [] []).mkdir "r").mkdir (joinPath "r" "build")).write
      (mkExtModule "x" "r").src_path "x")
    (by rfl)

/-- C8: construction with no root supplied (the default root) behaves
identically to construction with an explicit root in every observable
respect — both succeed from a state with no pre-existing source file,
with the same fingerprint, same canonical name, same retained code,
paths given by the same formulas relative to the respective root, the
source file materialized with contents equal to the text, and the build
directory created. -/
theorem default_root_equivalent (code root : String) (fsd fse : FS)
    (hd : fsd.read (mkExtModule code defaultRoot).src_path = none)
    (he : fse.read (mkExtModule code root).src_path = none) :
    constructEntryDefault code true fsd =
      Except.ok (mkExtModule code defaultRoot,
        (((fsd.mkdir defaultRoot).mkdir
            (joinPath defaultRoot "build")).write
          (mkExtModule code defaultRoot).src_path code)) ∧
    constructEntry code root true fse =
      Except.ok (mkExtModule code root,
        (((fse.mkdir root).mkdir (joinPath root "build")).write
          (mkExtModule code root).src_path code)) ∧
    (mkExtModule code defaultRoot).hash = (mkExtModule code root).hash ∧
    (mkExtModule code defaultRoot).name = (mkExtModule code root).name ∧
    (mkExtModule code defaultRoot).code = (mkExtModule code root).code ∧
    (mkExtModule code defaultRoot).src_path =
      joinPath defaultRoot ((mkExtModule code defaultRoot).name ++ ".pyx") ∧
    (mkExtModule code root).src_path =
      joinPath root ((mkExtModule code root).name ++ ".pyx") ∧
    ((((fsd.mkdir defaultRoot).mkdir (joinPath defaultRoot "build")).write
        (mkExtModule code defaultRoot).src_path code)).read
      (mkExtModule code defaultRoot).src_path = some code ∧
    ((((fse.mkdir root).mkdir (joinPath root "build")).write
        (mkExtModule code root).src_path code)).read
      (mkExtModule code root).src_path = some code ∧
    joinPath defaultRoot "build" ∈
      ((((fsd.mkdir defaultRoot).mkdir
          (joinPath defaultRoot "build")).write
        (mkExtModule code defaultRoot).src_path code)).dirs ∧
    joinPath root "build" ∈
      ((((fse.mkdir root).mkdir (joinPath root "build")).write
        (mkExtModule code root).src_path code)).dirs := by
  refine ⟨constructEntry_fresh code defaultRoot true fsd hd,
    constructEntry_fresh code root true fse he,
    rfl, rfl, rfl, rfl, rfl,
    FS.read_write_self _ _ _, FS.read_write_self _ _ _, ?_, ?_⟩
  · rw [FS.dirs_write]
    exact FS.mem_dirs_mkdir_self _ _
  · rw [FS.dirs_write]
    exact FS.mem_dirs_mkdir_self _ _

/-- Witness for C8 at the concrete text "x", the default root and the
explicit root "r", on empty filesystems. -/
theorem default_root_equivalent_witness :
    constructEntryDefault "x" true (FS.mk [] []) =
      Except.ok (mkExtModule "x" defaultRoot,
        ((((FS.mk [] []).mkdir defaultRoot).mkdir
            (joinPath defaultRoot "build")).write
          (mkExtModule "x" defaultRoot).src_path "x")) ∧
    constructEntry "x" "r" true (FS.mk [] []) =
      Except.ok (mkExtModule "x" "r",
        ((((FS.mk [] []).mkdir "r").mkdir (joinPath "r" "build")).write
          (mkExtModule "x" "r").src_path "x")) ∧
    (mkExtModule "x" defaultRoot).hash = (mkExtModule "x" "r").hash ∧
    (mkExtModule "x" defaultRoot).name = (mkExtModule "x" "r").name ∧
    (mkExtModule "x" defaultRoot).code = (mkExtModule "x" "r").code ∧
    (mkExtModule "x" defaultRoot).src_path =
      joinPath defaultRoot ((mkExtModule "x" defaultRoot).name ++ ".pyx") ∧
    (mkExtModule "x" "r").src_path =
      joinPath "r" ((mkExtModule "x" "r").name ++ ".pyx") ∧
    (((((FS.mk [] []).mkdir defaultRoot).mkdir
          (joinPath defaultRoot "build")).write
        (mkExtModule "x" defaultRoot).src_path "x")).read
      (mkExtModule "x" defaultRoot).src_path = some "x" ∧
    (((((FS.mk [] []).mkdir "r").mkdir (joinPath "r" "build")).write
        (mkExtModule "x" "r").src_path "x")).read
      (mkExtModule "x" "r").src_path = some "x" ∧
    joinPath defaultRoot "build" ∈
      (((((FS.mk [] []).mkdir defaultRoot).mkdir
          (joinPath defaultRoot "build")).write
        (mkExtModule "x" defaultRoot).src_path "x")).dirs ∧
    joinPath "r" "build" ∈
      (((((FS.mk [] []).mkdir "r").mkdir (joinPath "r" "build")).write
        (mkExtModule "x" "r").src_path "x")).dirs :=
  default_root_equivalent "x" "r" (FS.mk [] []) (FS.mk [] []) rfl rfl

end ExtMod
